import Mathlib

/-!
Verification of the ISDB_APP bank-account web application (src/app.py).

The file embeds, as executable Lean definitions:
  * the balance-validation helper `is_decimal` together with the string
    grammar of Python's `decimal.Decimal` constructor and the semantics of
    the comparison `Decimal(s) < 0`;
  * the database state (`account` and `depositor` tables) and the SQL
    statements the handlers issue;
  * the four request handlers (`account_index`, `account_update_view`,
    `account_update_save`, `account_delete`), with the explicit-transaction
    semantics of the delete modelled by a statement list executed under a
    failure oracle (commit on success, rollback to the pre-state on any
    statement failure);
  * the rate-limiter configuration (global defaults, per-route overrides,
    the `/ping` exemption) and a window-counting enforcement model.
-/

/-! ## Python `decimal.Decimal` string parsing

`Decimal(s)` accepts a numeric string: after stripping leading/trailing
whitespace and removing all underscores, the string must match
`[sign] (digits [. digits] | . digits) [E [sign] digits]`,
`[sign] Inf(inity)` or `[sign] [s]NaN [digits]`, case-insensitively.
On anything else it raises `InvalidOperation`. -/

/-- Characters Python treats as whitespace when stripping a numeric string. -/
def isPyWs (c : Char) : Bool :=
  c = ' ' || c = '\t' || c = '\n' || c = '\r' || c = '\x0b' || c = '\x0c'

/-- ASCII decimal digit test. -/
def isDig (c : Char) : Bool := '0' ≤ c && c ≤ '9'

/-- Numeric value of a digit string (used for the exponent part). -/
def digitsToNat (ds : List Char) : Nat :=
  ds.foldl (fun a c => a * 10 + (c.toNat - '0'.toNat)) 0

/-- Strip leading and trailing whitespace characters. -/
def stripWs (cs : List Char) : List Char :=
  ((cs.dropWhile isPyWs).reverse.dropWhile isPyWs).reverse

/-- Match a (lowercase) pattern case-insensitively against the front of the
input, returning the remainder on success. -/
def stripCI : List Char → List Char → Option (List Char)
  | [], cs => some cs
  | _ :: _, [] => none
  | p :: ps, c :: cs => if c.toLower = p then stripCI ps cs else none

/-- Result of parsing a Decimal numeric string: a finite value (sign,
integer-part digits, fraction-part digits, exponent), an infinity, or a
(possibly signaling) NaN. -/
inductive PyDec where
  | finite (neg : Bool) (ip fp : List Char) (exp : Int)
  | infinity (neg : Bool)
  | nan (neg : Bool) (signaling : Bool)
deriving DecidableEq

/-- Parse the exponent suffix `E [sign] digits` (or nothing) after the
coefficient; `none` when the remainder is not a well-formed exponent. -/
def parseExpPart (r : List Char) : Option Int :=
  match r with
  | [] => some 0
  | c :: r3 =>
    if c.toLower = 'e' then
      let (esign, r4) : Bool × List Char :=
        match r3 with
        | '-' :: r => (true, r)
        | '+' :: r => (false, r)
        | _ => (false, r3)
      let ed := r4.takeWhile isDig
      let r5 := r4.dropWhile isDig
      if ed = [] || r5 ≠ [] then none
      else some (if esign then -(digitsToNat ed : Int) else (digitsToNat ed : Int))
    else none

/-- Parse the numeric value following the optional sign: a number with at
least one coefficient digit and optional exponent, `Inf`/`Infinity`, or
`[s]NaN` with optional diagnostic digits. -/
def parseNumeric (neg : Bool) (cs : List Char) : Option PyDec :=
  match stripCI ['i', 'n', 'f'] cs with
  | some rest =>
    if rest = [] then some (.infinity neg)
    else
      match stripCI ['i', 'n', 'i', 't', 'y'] rest with
      | some [] => some (.infinity neg)
      | _ => none
  | none =>
  match stripCI ['n', 'a', 'n'] cs with
  | some rest => if rest.all isDig then some (.nan neg false) else none
  | none =>
  match stripCI ['s', 'n', 'a', 'n'] cs with
  | some rest => if rest.all isDig then some (.nan neg true) else none
  | none =>
    let ip := cs.takeWhile isDig
    let r1 := cs.dropWhile isDig
    let (fp, r2) : Option (List Char) × List Char :=
      match r1 with
      | '.' :: r => (some (r.takeWhile isDig), r.dropWhile isDig)
      | _ => (none, r1)
    if ip = [] && (fp = none || fp = some []) then none
    else
      match parseExpPart r2 with
      | some e => some (.finite neg ip (fp.getD []) e)
      | none => none

/-- Parse a full Python Decimal numeric string: strip whitespace, remove
underscores, consume the optional sign, then parse the numeric value. -/
def pyDecParse (s : String) : Option PyDec :=
  let cs := stripWs ((stripWs s.toList).filter (fun c => c ≠ '_'))
  if cs.head? = some '-' then parseNumeric true cs.tail
  else if cs.head? = some '+' then parseNumeric false cs.tail
  else parseNumeric false cs

/-- `is_decimal` from src/app.py: `Decimal(s)` inside try/except, returning
whether the constructor succeeded (no `InvalidOperation`). -/
def is_decimal (s : String) : Bool := (pyDecParse s).isSome

/-- Semantics of the Python comparison `Decimal(s) < 0`: comparing a NaN
raises `InvalidOperation` (modelled as `Except.error`); otherwise the value
is negative iff it is negative infinity or a finite value with negative sign
and a non-zero coefficient. -/
def pyDecLtZero : PyDec → Except Unit Bool
  | .nan _ _ => .error ()
  | .infinity neg => .ok neg
  | .finite neg ip fp _ => .ok (neg && !((ip ++ fp).all (fun c => c = '0')))

/-! ## Database model -/

/-- A row of the `account` table. The balance is kept as the SQL parameter
string the application sends. -/
structure AccountRow where
  account_number : String
  branch_name : String
  balance : String
deriving DecidableEq

/-- A row of the `depositor` join table. -/
structure DepositorRow where
  customer_name : String
  account_number : String
deriving DecidableEq

/-- The database state: the two tables the application touches. -/
structure DB where
  account : List AccountRow
  depositor : List DepositorRow
deriving DecidableEq

/-- `UPDATE account SET balance = b WHERE account_number = k`. -/
def updateBalance (k b : String) (rows : List AccountRow) : List AccountRow :=
  rows.map (fun r => if r.account_number = k then { r with balance := b } else r)

/-- The SQL statements issued inside the delete transaction. -/
inductive Stmt where
  | delDepositor (k : String)
  | delAccount (k : String)

/-- Effect of one statement on the database. -/
def applyStmt : Stmt → DB → DB
  | .delDepositor k, db =>
    { db with depositor := db.depositor.filter (fun r => r.account_number ≠ k) }
  | .delAccount k, db =>
    { db with account := db.account.filter (fun r => r.account_number ≠ k) }

/-- Run the statements of a transaction in order on a working state; `fails i`
says the i-th statement raises a `DatabaseError`, aborting the transaction. -/
def execStmts (stmts : List Stmt) (fails : Nat → Bool) (i : Nat) (work : DB) :
    Option DB :=
  match stmts with
  | [] => some work
  | s :: rest =>
    if fails i then none else execStmts rest fails (i + 1) (applyStmt s work)

/-- `with conn.transaction()`: BEGIN, run the statements, COMMIT the working
state on success; on any failure ROLLBACK, leaving the original state. The
Bool reports whether the transaction committed. -/
def runTransaction (stmts : List Stmt) (fails : Nat → Bool) (db : DB) :
    DB × Bool :=
  match execStmts stmts fails 0 db with
  | some db2 => (db2, true)
  | none => (db, false)

/-! ## Request handlers -/

/-- Descending order on account numbers, as a Bool relation for sorting:
`a` may precede `b` when `b.account_number ≤ a.account_number`. -/
def descAcct (a b : AccountRow) : Bool :=
  decide (b.account_number ≤ a.account_number)

/-- `GET /` and `GET /accounts` (`account_index`): `SELECT account_number,
branch_name, balance FROM account ORDER BY account_number DESC`, returning
all rows. -/
def account_index (db : DB) : List AccountRow :=
  db.account.mergeSort descAcct

/-- `GET /accounts/<k>/update` (`account_update_view`): `SELECT ... FROM
account WHERE account_number = k` with `fetchone()`; `none` models the
no-row case rendered as an empty form. -/
def account_update_view (k : String) (db : DB) : Option AccountRow :=
  db.account.find? (fun r => r.account_number = k)

/-- Outcome of the POST update handler: an uncaught `ValueError` from one of
the validation checks, an uncaught `decimal.InvalidOperation` from the
comparison `Decimal(balance) < 0`, or the redirect to the listing. -/
inductive UpdateOutcome where
  | valueError (msg : String)
  | invalidOp
  | redirect
deriving DecidableEq

/-- `POST /accounts/<k>/update` (`account_update_save`): reject an empty
balance, then a non-Decimal one, then a negative one (each by raising
`ValueError` before touching the database); `Decimal(balance) < 0` on a NaN
raises `InvalidOperation`. Otherwise run the autocommitted UPDATE and
redirect to the listing. Returns the outcome and the resulting database. -/
def account_update_save (k balance : String) (db : DB) : UpdateOutcome × DB :=
  if balance = "" then (.valueError "Balance is required.", db)
  else if !(is_decimal balance) then
    (.valueError "Balance is required to be decimal.", db)
  else
    match pyDecParse balance with
    | none => (.invalidOp, db)
    | some d =>
      match pyDecLtZero d with
      | .error _ => (.invalidOp, db)
      | .ok true => (.valueError "Balance is required to be positive.", db)
      | .ok false =>
        (.redirect, { db with account := updateBalance k balance db.account })

/-- Outcome of the POST delete handler: redirect on commit, a propagated
`DatabaseError` on rollback. -/
inductive DeleteOutcome where
  | redirect
  | databaseError
deriving DecidableEq

/-- `POST /accounts/<k>/delete` (`account_delete`): inside one explicit
transaction, `DELETE FROM depositor WHERE account_number = k` then
`DELETE FROM account WHERE account_number = k`; commit at the end of the
block, or roll back if a statement fails. -/
def account_delete (k : String) (fails : Nat → Bool) (db : DB) :
    DeleteOutcome × DB :=
  match runTransaction [.delDepositor k, .delAccount k] fails db with
  | (db2, true) => (.redirect, db2)
  | (db2, false) => (.databaseError, db2)

/-! ## Rate limiter

The configuration below is taken from src/app.py: the `Limiter` is
constructed with `default_limits=["200 per day", "50 per hour"]` keyed by
the remote address, `account_index` and `account_update_view` carry an extra
`@limiter.limit("1 per second")`, and `ping` carries `@limiter.exempt`. -/

/-- A rate limit: at most `count` requests within a window of
`windowSeconds` seconds. -/
structure Limit where
  count : Nat
  windowSeconds : Nat
deriving DecidableEq

/-- The application's routes. -/
inductive Route where
  | index
  | updateView
  | updateSave
  | delete
  | ping
deriving DecidableEq

/-- `default_limits=["200 per day", "50 per hour"]` from the `Limiter`
construction. -/
def default_limits : List Limit := [⟨200, 86400⟩, ⟨50, 3600⟩]

/-- The limits applicable to each route: the global defaults everywhere,
`1 per second` additionally on the listing and update-view routes, and no
limits at all on the exempt `/ping` route. -/
def routeLimits : Route → List Limit
  | .index => ⟨1, 1⟩ :: default_limits
  | .updateView => ⟨1, 1⟩ :: default_limits
  | .updateSave => default_limits
  | .delete => default_limits
  | .ping => []

/-- Whether a past request at second `h` falls inside the window of `w`
seconds ending at the current second `t`. -/
def withinWindow (t w h : Nat) : Bool := h ≤ t && t < h + w

/-- Number of requests in `hist` (the client's past request times) that fall
inside the window of `w` seconds ending at `t`. -/
def countInWindow (hist : List Nat) (t w : Nat) : Nat :=
  (hist.filter (withinWindow t w)).length

/-- Modelled from the spec: flask-limiter's enforcement engine is library
code, not part of this repository. Per the spec, requests are counted per
client address; a request is allowed iff for every limit applicable to the
route, the client's request count within that limit's window is still below
the limit. -/
def rateLimitAllows (r : Route) (hist : List Nat) (t : Nat) : Bool :=
  (routeLimits r).all (fun L => countInWindow hist t L.windowSeconds < L.count)

/-- An incoming HTTP request: route, route parameter, form field, current
time in seconds, and the client's past request times. -/
structure Request where
  route : Route
  account_number : String
  balance : String
  time : Nat
  history : List Nat

/-- An HTTP response of the application. -/
inductive Response where
  | rateLimited
  | page (rows : List AccountRow)
  | editPage (acc : Option AccountRow)
  | redirect
  | valueError (msg : String)
  | invalidOp
  | databaseError
  | json (status : Nat) (fields : List (String × String))
deriving DecidableEq

/-- Full request dispatch: the rate-limit check runs first and a rejected
request produces `rateLimited` with the database untouched; otherwise the
route's handler runs. `jsonify` responds with status 200. -/
def dispatch (req : Request) (fails : Nat → Bool) (db : DB) : Response × DB :=
  if rateLimitAllows req.route req.history req.time then
    match req.route with
    | .index => (.page (account_index db), db)
    | .updateView => (.editPage (account_update_view req.account_number db), db)
    | .updateSave =>
      match account_update_save req.account_number req.balance db with
      | (.valueError m, db2) => (.valueError m, db2)
      | (.invalidOp, db2) => (.invalidOp, db2)
      | (.redirect, db2) => (.redirect, db2)
    | .delete =>
      match account_delete req.account_number fails db with
      | (.redirect, db2) => (.redirect, db2)
      | (.databaseError, db2) => (.databaseError, db2)
    | .ping => (.json 200 [("message", "pong!"), ("status", "success")], db)
  else (.rateLimited, db)

/-! ## Helper lemmas -/

/-- A filter by a predicate every element already satisfies does nothing. -/
theorem filter_ne_eq_self {α : Type} (k : α → String) (v : String)
    (l : List α) (h : ∀ r ∈ l, k r ≠ v) :
    l.filter (fun r => k r ≠ v) = l :=
  List.filter_eq_self.mpr fun r hr => decide_eq_true (h r hr)

/-- Filtering by the same predicate twice equals filtering once. -/
theorem filter_idem {α : Type} (p : α → Bool) (l : List α) :
    (l.filter p).filter p = l.filter p :=
  List.filter_eq_self.mpr fun _ hr => (List.mem_filter.mp hr).2

/-- The committed run of the delete transaction, explicitly. -/
theorem execStmts_delete (k : String) (fails : Nat → Bool) (db : DB)
    (h0 : fails 0 = false) (h1 : fails 1 = false) :
    execStmts [.delDepositor k, .delAccount k] fails 0 db =
      some ⟨db.account.filter (fun r => r.account_number ≠ k),
            db.depositor.filter (fun r => r.account_number ≠ k)⟩ := by
  simp [execStmts, h0, h1, applyStmt]

/-- An aborted run of the delete transaction returns none. -/
theorem execStmts_delete_fail (k : String) (fails : Nat → Bool) (db : DB)
    (h : fails 0 = true ∨ fails 1 = true) :
    execStmts [.delDepositor k, .delAccount k] fails 0 db = none := by
  rcases h with h | h
  · simp [execStmts, h]
  · cases hf : fails 0 <;> simp [execStmts, hf, h]

/-- A concrete example database used by witnesses. -/
def dbEx : DB :=
  ⟨[⟨"101", "A", "500.00"⟩, ⟨"202", "B", "10"⟩],
   [⟨"c1", "101"⟩, ⟨"c2", "202"⟩]⟩

/-- C2: the delete operation runs its two DELETE statements inside one
explicit transaction; if either statement fails the whole transaction rolls
back, leaving both tables exactly as before, and on success both deletions
are committed together. -/
theorem delete_two_statement_transaction_atomic (k : String)
    (fails : Nat → Bool) (db : DB) :
    ((fails 0 = true ∨ fails 1 = true) →
      account_delete k fails db = (.databaseError, db)) ∧
    (fails 0 = false → fails 1 = false →
      account_delete k fails db =
        (.redirect,
          ⟨db.account.filter (fun r => r.account_number ≠ k),
           db.depositor.filter (fun r => r.account_number ≠ k)⟩)) := by
  constructor
  · intro h
    simp [account_delete, runTransaction, execStmts_delete_fail k fails db h]
  · intro h0 h1
    simp [account_delete, runTransaction, execStmts_delete k fails db h0 h1]

/-- Witness for C2: with the second statement failing, deleting account 101
rolls back to the original database; with no failure it commits. -/
theorem delete_two_statement_transaction_atomic_witness :
    account_delete "101" (fun i => decide (i = 1)) dbEx =
      (.databaseError, dbEx) :=
  (delete_two_statement_transaction_atomic "101" (fun i => decide (i = 1))
    dbEx).1 (Or.inr rfl)

/-- C5: a committed delete removes exactly the account row and depositor
rows carrying the given key: a row is in the resulting table iff it was
there before and its account_number differs from the key. -/
theorem delete_frame_exact (k : String) (fails : Nat → Bool) (db : DB)
    (h0 : fails 0 = false) (h1 : fails 1 = false) :
    (∀ r, r ∈ ((account_delete k fails db).2).account ↔
        r ∈ db.account ∧ r.account_number ≠ k) ∧
    (∀ r, r ∈ ((account_delete k fails db).2).depositor ↔
        r ∈ db.depositor ∧ r.account_number ≠ k) := by
  simp [account_delete, runTransaction, execStmts_delete k fails db h0 h1,
        List.mem_filter]

/-- Witness for C5: after deleting account 101, the row of account 202 is
still present. -/
theorem delete_frame_exact_witness :
    (⟨"202", "B", "10"⟩ : AccountRow) ∈
      ((account_delete "101" (fun _ => false) dbEx).2).account :=
  ((delete_frame_exact "101" (fun _ => false) dbEx rfl rfl).1
    ⟨"202", "B", "10"⟩).mpr ⟨by decide, by decide⟩

/-- C6: deleting a key with no matching account or depositor rows is a
successful no-op (zero rows affected, redirect), and a second delete of the
same key leaves the state of the first delete unchanged. -/
theorem delete_idempotent_noop (k : String) (fails : Nat → Bool) (db : DB)
    (h0 : fails 0 = false) (h1 : fails 1 = false)
    (ha : ∀ r ∈ db.account, r.account_number ≠ k)
    (hd : ∀ r ∈ db.depositor, r.account_number ≠ k) :
    account_delete k fails db = (.redirect, db) ∧
    account_delete k fails (account_delete k fails db).2 =
      (.redirect, (account_delete k fails db).2) := by
  have hne := execStmts_delete k fails db h0 h1
  constructor
  · have hrt : runTransaction [.delDepositor k, .delAccount k] fails db =
        (db, true) := by
      simp only [runTransaction, hne,
        filter_ne_eq_self (fun r : AccountRow => r.account_number) k db.account ha,
        filter_ne_eq_self (fun r : DepositorRow => r.account_number) k db.depositor hd]
    simp [account_delete, hrt]
  · have h2 : (account_delete k fails db).2 =
        ⟨db.account.filter (fun r => r.account_number ≠ k),
         db.depositor.filter (fun r => r.account_number ≠ k)⟩ := by
      simp [account_delete, runTransaction, hne]
    rw [h2]
    simp [account_delete, runTransaction,
          execStmts_delete k fails _ h0 h1, filter_idem]

/-- Witness for C6: deleting the absent account 999 leaves the example
database untouched and redirects. -/
theorem delete_idempotent_noop_witness :
    account_delete "999" (fun _ => false) dbEx = (.redirect, dbEx) :=
  (delete_idempotent_noop "999" (fun _ => false) dbEx rfl rfl
    (by decide) (by decide)).1

/-- C3: the POST update handler touches the database only after all three
validation checks pass: any non-redirect outcome leaves the database
unchanged; the outcome is a redirect exactly when the balance is non-empty,
decimal, and compares not-less-than zero; and in that case the handler
performs the UPDATE and redirects. -/
theorem update_validation_guards (k b : String) (db : DB) :
    ((account_update_save k b db).1 ≠ .redirect →
      (account_update_save k b db).2 = db) ∧
    ((account_update_save k b db).1 = .redirect ↔
      b ≠ "" ∧ is_decimal b = true ∧
      ∃ d, pyDecParse b = some d ∧ pyDecLtZero d = .ok false) ∧
    ((account_update_save k b db).1 = .redirect →
      account_update_save k b db =
        (.redirect, { db with account := updateBalance k b db.account })) := by
  by_cases hb : b = ""
  · simp [account_update_save, hb]
  · cases hd : is_decimal b
    · simp [account_update_save, hb, hd]
    · rcases hp : pyDecParse b with _ | d
      · simp [account_update_save, hb, hd, hp]
      · rcases hlt : pyDecLtZero d with e | bo
        · simp [account_update_save, hb, hd, hp, hlt]
        · cases bo
          · simp [account_update_save, hb, hd, hp, hlt]
          · simp [account_update_save, hb, hd, hp, hlt]

/-- Witness for C3: the negative balance "-5" is rejected with the database
left unchanged, and the valid balance "750.50" leads to a redirect. -/
theorem update_validation_guards_witness :
    (account_update_save "101" "-5" dbEx).2 = dbEx ∧
    (account_update_save "101" "750.50" dbEx).1 = .redirect :=
  ⟨(update_validation_guards "101" "-5" dbEx).1 (by decide),
   ((update_validation_guards "101" "750.50" dbEx).2.1).mpr
     ⟨by decide, by decide, ⟨.finite false ['7', '5', '0'] ['5', '0'] 0,
       by decide, rfl⟩⟩⟩

/-- C7: a POST update with a valid balance for a key matching no account row
affects zero rows: the handler still redirects and the database is exactly
what it was. -/
theorem update_missing_key_noop (k b : String) (db : DB)
    (hmiss : ∀ r ∈ db.account, r.account_number ≠ k)
    (hok : (account_update_save k b db).1 = .redirect) :
    account_update_save k b db = (.redirect, db) := by
  have hupd : updateBalance k b db.account = db.account := by
    unfold updateBalance
    have hcongr := List.map_congr_left (l := db.account)
      (f := fun r => if r.account_number = k then { r with balance := b } else r)
      (g := id) (fun r hr => by simp [hmiss r hr])
    simpa using hcongr
  by_cases hb : b = ""
  · simp [account_update_save, hb] at hok
  · cases hd : is_decimal b
    · simp [account_update_save, hb, hd] at hok
    · rcases hp : pyDecParse b with _ | d
      · simp [account_update_save, hb, hd, hp] at hok
      · rcases hlt : pyDecLtZero d with e | bo
        · simp [account_update_save, hb, hd, hp, hlt] at hok
        · cases bo
          · simp [account_update_save, hb, hd, hp, hlt, hupd]
          · simp [account_update_save, hb, hd, hp, hlt] at hok

/-- Witness for C7: updating the absent account 999 with a valid balance
leaves the example database unchanged and redirects. -/
theorem update_missing_key_noop_witness :
    account_update_save "999" "750.50" dbEx = (.redirect, dbEx) :=
  update_missing_key_noop "999" "750.50" dbEx (by decide) (by decide)

/-- C4: "NaN" and "Infinity" both pass `is_decimal`; the update handler on
"NaN" raises an uncaught `InvalidOperation` from `Decimal(balance) < 0`
(database untouched), while "Infinity" passes all three checks and reaches
the UPDATE, redirecting afterwards. -/
theorem nan_infinity_validation :
    is_decimal "NaN" = true ∧ is_decimal "Infinity" = true ∧
    (∀ (k : String) (db : DB),
      account_update_save k "NaN" db = (.invalidOp, db)) ∧
    (∀ (k : String) (db : DB),
      account_update_save k "Infinity" db =
        (.redirect,
          { db with account := updateBalance k "Infinity" db.account })) := by
  refine ⟨by decide, by decide, ?_, ?_⟩
  · intro k db
    have hp : pyDecParse "NaN" = some (.nan false false) := by decide
    simp [account_update_save, hp, (by decide : ¬("NaN" : String) = ""),
      (by decide : is_decimal "NaN" = true), pyDecLtZero]
  · intro k db
    have hp : pyDecParse "Infinity" = some (.infinity false) := by decide
    simp [account_update_save, hp, (by decide : ¬("Infinity" : String) = ""),
      (by decide : is_decimal "Infinity" = true), pyDecLtZero]

/-- C8: the listing returns all rows of the account table (a permutation of
the table, no pagination) ordered by account_number descending. -/
theorem index_returns_all_sorted_desc (db : DB) :
    List.Perm (account_index db) db.account ∧
    List.Sorted (fun a b : AccountRow => b.account_number ≤ a.account_number)
      (account_index db) := by
  constructor
  · exact List.mergeSort_perm db.account descAcct
  · have htrans : ∀ a b c : AccountRow, descAcct a b = true →
        descAcct b c = true → descAcct a c = true := by
      intro a b c hab hbc
      exact decide_eq_true (le_trans (of_decide_eq_true hbc) (of_decide_eq_true hab))
    have htotal : ∀ a b : AccountRow, (descAcct a b || descAcct b a) = true := by
      intro a b
      simpa [descAcct] using le_total b.account_number a.account_number
    have hp := List.sorted_mergeSort htrans htotal db.account
    exact hp.imp (fun h => of_decide_eq_true h)

/-- C9: the limiter's configuration is 200/day and 50/hour globally with an
extra 1/second on the listing and update-view routes; a request from a
client that has reached an applicable limit within its window is answered
with a rate-limit error and the database is untouched (no handler runs). -/
theorem rate_limits_enforced :
    default_limits = [⟨200, 86400⟩, ⟨50, 3600⟩] ∧
    routeLimits .index = ⟨1, 1⟩ :: default_limits ∧
    routeLimits .updateView = ⟨1, 1⟩ :: default_limits ∧
    (∀ (req : Request) (fails : Nat → Bool) (db : DB),
      (∃ L ∈ routeLimits req.route,
        L.count ≤ countInWindow req.history req.time L.windowSeconds) →
      dispatch req fails db = (.rateLimited, db)) := by
  refine ⟨rfl, rfl, rfl, ?_⟩
  intro req fails db h
  cases hall : rateLimitAllows req.route req.history req.time
  · simp [dispatch, hall]
  · exfalso
    rcases h with ⟨L, hL, hcnt⟩
    have h2 : (fun L : Limit =>
        decide (countInWindow req.history req.time L.windowSeconds < L.count))
          L = true :=
      List.all_eq_true.mp hall L hL
    have hlt := of_decide_eq_true h2
    omega

/-- Witness for C9: a client that already made a request at second 5 is
rejected on the listing route (1/second limit) at second 5. -/
theorem rate_limits_enforced_witness :
    dispatch ⟨.index, "", "", 5, [5]⟩ (fun _ => false) dbEx =
      (.rateLimited, dbEx) :=
  rate_limits_enforced.2.2.2 ⟨.index, "", "", 5, [5]⟩ (fun _ => false) dbEx
    ⟨⟨1, 1⟩, by decide, by decide⟩

/-- C10: `/ping` carries no limits at all, and every GET to it — whatever
the client's history — answers 200 with exactly the fixed JSON payload,
leaving the database untouched. -/
theorem ping_fixed_payload_exempt :
    routeLimits .ping = [] ∧
    ∀ (k b : String) (t : Nat) (hist : List Nat) (fails : Nat → Bool)
      (db : DB),
      dispatch ⟨.ping, k, b, t, hist⟩ fails db =
        (.json 200 [("message", "pong!"), ("status", "success")], db) := by
  refine ⟨rfl, ?_⟩
  intro k b t hist fails db
  simp [dispatch, rateLimitAllows, routeLimits]

/-- The ten ASCII digit characters. -/
def digitChars : List Char := ['0', '1', '2', '3', '4', '5', '6', '7', '8', '9']

/-- Facts about a digit character needed to trace it through the parser. -/
theorem digit_char_props (c : Char) (h : c ∈ digitChars) :
    isDig c = true ∧ isPyWs c = false ∧ c ≠ '_' ∧
    c.toLower ≠ 'i' ∧ c.toLower ≠ 'n' ∧ c.toLower ≠ 's' ∧
    c ≠ '-' ∧ c ≠ '+' := by
  fin_cases h <;> exact (by decide)

/-- Dropping by a predicate no element satisfies drops nothing. -/
theorem dropWhile_none {p : Char → Bool} {l : List Char}
    (h : ∀ c ∈ l, p c = false) : l.dropWhile p = l := by
  cases l with
  | nil => rfl
  | cons c cs => rw [List.dropWhile_cons, h c (List.mem_cons_self c cs)]; simp

/-- Stripping whitespace from a whitespace-free string does nothing. -/
theorem stripWs_eq_self {l : List Char} (h : ∀ c ∈ l, isPyWs c = false) :
    stripWs l = l := by
  unfold stripWs
  rw [dropWhile_none h,
    dropWhile_none (fun c hc => h c (List.mem_reverse.mp hc)),
    List.reverse_reverse]

/-- The numeric-value parser accepts any nonempty all-digit string as a
finite number with those integer-part digits and exponent 0. -/
theorem parseNumeric_digits (neg : Bool) (d : Char) (rest : List Char)
    (h : ∀ c ∈ d :: rest, c ∈ digitChars) :
    parseNumeric neg (d :: rest) = some (.finite neg (d :: rest) [] 0) := by
  obtain ⟨-, -, -, hi, hn, hs, -, -⟩ :=
    digit_char_props d (h d (List.mem_cons_self d rest))
  have hall : ∀ c ∈ d :: rest, isDig c = true :=
    fun c hc => (digit_char_props c (h c hc)).1
  have htake : (d :: rest).takeWhile isDig = d :: rest :=
    List.takeWhile_eq_self_iff.mpr hall
  have hdrop : (d :: rest).dropWhile isDig = [] :=
    List.dropWhile_eq_nil_iff.mpr hall
  simp [parseNumeric, stripCI, hi, hn, hs, htake, hdrop, parseExpPart]

/-- An unsigned all-digit string parses as a non-negative finite Decimal. -/
theorem pyDecParse_digits (d : Char) (rest : List Char)
    (h : ∀ c ∈ d :: rest, c ∈ digitChars) :
    pyDecParse (String.mk (d :: rest)) = some (.finite false (d :: rest) [] 0) := by
  obtain ⟨-, -, -, -, -, -, hm, hp⟩ :=
    digit_char_props d (h d (List.mem_cons_self d rest))
  have hws : ∀ c ∈ d :: rest, isPyWs c = false :=
    fun c hc => (digit_char_props c (h c hc)).2.1
  have hus : (d :: rest).filter (fun c => c ≠ '_') = d :: rest :=
    List.filter_eq_self.mpr
      (fun c hc => decide_eq_true (digit_char_props c (h c hc)).2.2.1)
  have htl : (String.mk (d :: rest)).toList = d :: rest := rfl
  simp only [pyDecParse, htl, stripWs_eq_self hws, hus, List.head?_cons,
    List.tail_cons, Option.some_inj]
  rw [if_neg (by simp [hm]), if_neg (by simp [hp])]
  exact parseNumeric_digits false d rest h

/-- A minus-signed all-digit string parses as a negative finite Decimal. -/
theorem pyDecParse_neg_digits (d : Char) (rest : List Char)
    (h : ∀ c ∈ d :: rest, c ∈ digitChars) :
    pyDecParse (String.mk ('-' :: d :: rest)) =
      some (.finite true (d :: rest) [] 0) := by
  have hws : ∀ c ∈ '-' :: d :: rest, isPyWs c = false := by
    intro c hc
    rcases List.mem_cons.mp hc with rfl | hc
    · decide
    · exact (digit_char_props c (h c hc)).2.1
  have hus : ('-' :: d :: rest).filter (fun c => c ≠ '_') = '-' :: d :: rest :=
    List.filter_eq_self.mpr (by
      intro c hc
      rcases List.mem_cons.mp hc with rfl | hc
      · decide
      · exact decide_eq_true (digit_char_props c (h c hc)).2.2.1)
  have htl : (String.mk ('-' :: d :: rest)).toList = '-' :: d :: rest := rfl
  simp only [pyDecParse, htl, stripWs_eq_self hws, hus, List.head?_cons,
    List.tail_cons, if_pos rfl]
  exact parseNumeric_digits true d rest h

/-- A plus-signed all-digit string parses as a non-negative finite Decimal. -/
theorem pyDecParse_pos_digits (d : Char) (rest : List Char)
    (h : ∀ c ∈ d :: rest, c ∈ digitChars) :
    pyDecParse (String.mk ('+' :: d :: rest)) =
      some (.finite false (d :: rest) [] 0) := by
  have hws : ∀ c ∈ '+' :: d :: rest, isPyWs c = false := by
    intro c hc
    rcases List.mem_cons.mp hc with rfl | hc
    · decide
    · exact (digit_char_props c (h c hc)).2.1
  have hus : ('+' :: d :: rest).filter (fun c => c ≠ '_') = '+' :: d :: rest :=
    List.filter_eq_self.mpr (by
      intro c hc
      rcases List.mem_cons.mp hc with rfl | hc
      · decide
      · exact decide_eq_true (digit_char_props c (h c hc)).2.2.1)
  have htl : (String.mk ('+' :: d :: rest)).toList = '+' :: d :: rest := rfl
  simp only [pyDecParse, htl, stripWs_eq_self hws, hus, List.head?_cons,
    List.tail_cons]
  rw [if_neg (by decide)]
  simp only [if_true]
  exact parseNumeric_digits false d rest h

/-- C1 (amended): `is_decimal` accepts any parseable Decimal string
regardless of sign — every unsigned, minus-signed, or plus-signed digit
string is accepted — and rejects empty and non-numeric strings; the
`value >= 0` requirement is not part of `is_decimal` but is enforced
separately by the update handler, which rejects a negative balance with a
`ValueError` before any database statement. -/
theorem is_decimal_sign_blind (d : Char) (rest : List Char)
    (h : ∀ c ∈ d :: rest, c ∈ digitChars)
    (hnz : ((d :: rest).all (fun c => c = '0')) = false) :
    is_decimal (String.mk (d :: rest)) = true ∧
    is_decimal (String.mk ('-' :: d :: rest)) = true ∧
    is_decimal (String.mk ('+' :: d :: rest)) = true ∧
    is_decimal "" = false ∧
    is_decimal "abc" = false ∧
    (∀ (k : String) (db : DB),
      account_update_save k (String.mk ('-' :: d :: rest)) db =
        (.valueError "Balance is required to be positive.", db)) := by
  refine ⟨?_, ?_, ?_, by decide, by decide, ?_⟩
  · simp [is_decimal, pyDecParse_digits d rest h]
  · simp [is_decimal, pyDecParse_neg_digits d rest h]
  · simp [is_decimal, pyDecParse_pos_digits d rest h]
  · intro k db
    have hne : String.mk ('-' :: d :: rest) ≠ "" := by
      intro he
      exact absurd (String.ext_iff.mp he) (by simp)
    have hdec : is_decimal (String.mk ('-' :: d :: rest)) = true := by
      simp [is_decimal, pyDecParse_neg_digits d rest h]
    have hlt : pyDecLtZero (.finite true (d :: rest) [] 0) = .ok true := by
      simp [pyDecLtZero, hnz]
    simp [account_update_save, hne, hdec, pyDecParse_neg_digits d rest h, hlt]

/-- Counterexample to C1 as stated: "-5" is a negative decimal string
(it parses to a value strictly below zero), yet `is_decimal` returns true
on it, where the claim requires false for every negative string. -/
theorem is_decimal_negative_counterexample :
    is_decimal "-5" = true ∧
    pyDecParse "-5" = some (.finite true ['5'] [] 0) ∧
    pyDecLtZero (.finite true ['5'] [] 0) = .ok true :=
  ⟨by decide, by decide, rfl⟩

/-- Witness for C1 (amended), instantiated at the digit list ['5']. -/
theorem is_decimal_sign_blind_witness :
    is_decimal (String.mk ('-' :: '5' :: [])) = true :=
  (is_decimal_sign_blind '5' [] (by decide) (by decide)).2.1
